import Mathlib

/-!
Shallow embedding of the dynamic-portfolio backend.

The embedded code is the file-backed storage manager and its Express
controller (`UserStorageManager` / `userController`), the ORM model
validation of the Sequelize variant, and the error-handling middleware.
The on-disk JSON document is modelled as a `List User`; every storage
operation returns the final document together with its outcome, and a
thrown JS error is an `Except.error` paired with the unchanged document
(in the source every `throw` happens before the corresponding
`fs.writeFile`).  `uuidv4()` and `new Date().toISOString()` are
modelled as explicit parameters (`freshId`, `now`).
-/

namespace Portfolio

/-- Bytes of a binary blob, modelled as a list of byte values. -/
abbrev Bytes := List Nat

/-- A project entry: objects of shape name/link in the JSON sub-lists. -/
structure Project where
  name : String
  link : String
deriving Repr, DecidableEq

/-- A social entry: objects of shape platform/link in the JSON sub-lists. -/
structure Social where
  platform : String
  link : String
deriving Repr, DecidableEq

/-- A stored profile record, as written to `users.json`. -/
structure User where
  id : String
  fullName : String
  profession : Option String
  skills : List String
  projects : List Project
  socials : List Social
  profilePicture : Option String
  createdAt : String
  updatedAt : String
deriving Repr, DecidableEq

/-- The fields the controller assembles before calling `createUser`
(everything of a record except id and the two timestamps). -/
structure UserData where
  fullName : String
  profession : Option String
  skills : List String
  projects : List Project
  socials : List Social
  profilePicture : Option String
deriving Repr, DecidableEq

/-- A partial update object passed to `updateUser`: a spread source in
`\x7b...users[userIndex], ...updatedData\x7d`.  A `some` field is a key
present in `updatedData` (fully replacing the prior value on merge), a
`none` field is an absent key.  The callers in this repository never put
`id`, `createdAt` or `updatedAt` keys into `updatedData`, so those keys
are not modelled. -/
structure PartialUser where
  fullName : Option String := none
  profession : Option (Option String) := none
  skills : Option (List String) := none
  projects : Option (List Project) := none
  socials : Option (List Social) := none
  profilePicture : Option (Option String) := none
deriving Repr, DecidableEq

/-- JS `Array.prototype.find`: first element satisfying the predicate. -/
def jsFind (p : α → Bool) : List α → Option α
  | [] => none
  | x :: xs => if p x then some x else jsFind p xs

/-- JS `Array.prototype.findIndex`, with `none` for the -1 result. -/
def jsFindIndex (p : α → Bool) : List α → Option Nat
  | [] => none
  | x :: xs => if p x then some 0 else (jsFindIndex p xs).map (· + 1)

/-- `getAllUsers`: reads and parses the whole document (an absent file is
the empty list; that case is folded into the `doc` parameter). -/
def getAllUsers (doc : List User) : List User := doc

/-- `getUserById`: `users.find(user => user.id === id)`. -/
def getUserById (doc : List User) (id : String) : Option User :=
  jsFind (fun u => u.id == id) (getAllUsers doc)

/-- `createUser`: spreads `userData`, adds a fresh id and both
timestamps, appends to the document and rewrites it.  Returns the new
document and the stored record. -/
def createUser (doc : List User) (userData : UserData) (freshId now : String) :
    List User × User :=
  let newUser : User :=
    { id := freshId
      fullName := userData.fullName
      profession := userData.profession
      skills := userData.skills
      projects := userData.projects
      socials := userData.socials
      profilePicture := userData.profilePicture
      createdAt := now
      updatedAt := now }
  (getAllUsers doc ++ [newUser], newUser)

/-- The spread merge `\x7b...users[userIndex], ...updatedData,
updatedAt: now\x7d`: a present key replaces, an absent key is retained,
`updatedAt` is always refreshed. -/
def mergeUser (u : User) (p : PartialUser) (now : String) : User :=
  { id := u.id
    fullName := p.fullName.getD u.fullName
    profession := p.profession.getD u.profession
    skills := p.skills.getD u.skills
    projects := p.projects.getD u.projects
    socials := p.socials.getD u.socials
    profilePicture := p.profilePicture.getD u.profilePicture
    createdAt := u.createdAt
    updatedAt := now }

/-- `updateUser`: findIndex, throw-if-absent, merge in place, rewrite.
The returned list is the document on disk after the call; on the error
path the throw precedes any write, so the input document is returned. -/
def updateUser (doc : List User) (id : String) (updatedData : PartialUser)
    (now : String) : List User × Except String User :=
  let users := getAllUsers doc
  match jsFindIndex (fun u => u.id == id) users with
  | none => (doc, .error "User not found")
  | some userIndex =>
    match users.get? userIndex with
    | none => (doc, .error "User not found")
    | some u =>
      let merged := mergeUser u updatedData now
      (users.set userIndex merged, .ok merged)

/-- Outcome of `fs.unlink` on a picture path. -/
inductive UnlinkResult
  | ok
  | enoent
  | ioError (msg : String)
deriving Repr, DecidableEq

/-- `deleteUser`: findIndex, throw-if-absent, best-effort unlink of the
profile picture (ENOENT ignored, any other I/O error rethrown before
the document is touched), then filter the record out and rewrite. -/
def deleteUser (doc : List User) (id : String)
    (unlink : String → UnlinkResult) : List User × Except String Unit :=
  let users := getAllUsers doc
  match jsFindIndex (fun u => u.id == id) users with
  | none => (doc, .error "User not found")
  | some userIndex =>
    match users.get? userIndex with
    | none => (doc, .error "User not found")
    | some user =>
      let unlinkOutcome : Except String Unit :=
        match user.profilePicture with
        | none => .ok ()
        | some pic =>
          match unlink pic with
          | .ioError msg => .error msg
          | _ => .ok ()
      match unlinkOutcome with
      | .error msg => (doc, .error msg)
      | .ok _ => (users.filter (fun u => !(u.id == id)), .ok ())

/-! ### Picture store -/

/-- The multer in-memory file object handed to `uploadProfilePicture`. -/
structure UploadedFile where
  mimetype : String
  size : Nat
  originalname : String
  buffer : Bytes
deriving Repr, DecidableEq

/-- The picture directory: generated filename paired with blob bytes. -/
abbrev PicStore := List (String × Bytes)

/-- Whether the first character list begins with the second one. -/
def startsWithChars : List Char → List Char → Bool
  | _, [] => true
  | [], _ :: _ => false
  | c :: cs, d :: ds => c = d && startsWithChars cs ds

/-- JS `String.prototype.startsWith`, spelled out over characters. -/
def strStartsWith (s pre : String) : Bool :=
  startsWithChars s.toList pre.toList

/-- Suffix of the character list starting at its last dot, if any. -/
def extFrom : List Char → Option (List Char)
  | [] => none
  | c :: rest =>
    match extFrom rest with
    | some e => some e
    | none => if c = '.' then some (c :: rest) else none

/-- `path.extname` on a plain file name: the part from the last dot on,
empty when there is no dot or the only dot is the leading character
(dotfiles such as .bashrc have no extension). -/
def extname (s : String) : String :=
  match s.toList with
  | [] => ""
  | _ :: rest =>
    match extFrom rest with
    | some e => String.mk e
    | none => ""

/-- `uploadProfilePicture`: rejects a non-image mime type, then a file
over 10 MiB, each before any disk write; otherwise writes the bytes
under `uuidv4() + extname(originalname)` and returns that filename.
The first component is the picture directory after the call. -/
def uploadProfilePicture (store : PicStore) (file : UploadedFile)
    (freshUuid : String) : PicStore × Except String String :=
  if !(strStartsWith file.mimetype "image/") then
    (store, .error "Not an image! Please upload an image.")
  else if file.size > 10 * 1024 * 1024 then
    (store, .error "File too large. Maximum size is 10MB.")
  else
    let uniqueFilename := freshUuid ++ extname file.originalname
    (store ++ [(uniqueFilename, file.buffer)], .ok uniqueFilename)

/-! ### HTTP controller layer (file-backed variant) -/

/-- Response payloads the controller sends with `res.json` / `res.send`. -/
inductive ResBody
  | user (u : User)
  | users (us : List User)
  | message (m : String)
  | errorBody (message : String) (error : String)
deriving Repr, DecidableEq

/-- An HTTP response: status code plus JSON body. -/
structure HttpResponse where
  status : Nat
  body : ResBody
deriving Repr, DecidableEq

/-- The multipart body of a create request.  `none` is an absent field,
`some s` a supplied string (possibly empty, which JS treats as falsy). -/
structure CreateBody where
  fullName : String
  profession : Option String := none
  skills : Option String := none
  projects : Option String := none
  socials : Option String := none
deriving Repr, DecidableEq

/-- JS `x || y` on an optional string: an absent or empty (falsy) `x`
yields `y`. -/
def jsOrString (x : Option String) (d : String) : String :=
  match x with
  | some s => if s = "" then d else s
  | none => d

/-- JS `x || y` where the fallback itself may be null. -/
def jsOrOptString (x : Option String) (d : Option String) : Option String :=
  match x with
  | some s => if s = "" then d else some s
  | none => d

/-- The `userData` object `userController.createUser` assembles:
`req.body.skills ? JSON.parse(req.body.skills) : []` and likewise for
projects and socials, `req.body.profession || null`, and the uploaded
picture filename when a file was sent.  The `JSON.parse` calls are
modelled by the `parse*` parameters (the claims below never invoke
them on a malformed string, so the throwing case is not modelled). -/
def controllerCreateData (body : CreateBody)
    (parseSkills : String → List String)
    (parseProjects : String → List Project)
    (parseSocials : String → List Social)
    (uploadedPicture : Option String) : UserData :=
  { fullName := body.fullName
    profession := jsOrOptString body.profession none
    skills :=
      match body.skills with
      | some s => if s = "" then [] else parseSkills s
      | none => []
    projects :=
      match body.projects with
      | some s => if s = "" then [] else parseProjects s
      | none => []
    socials :=
      match body.socials with
      | some s => if s = "" then [] else parseSocials s
      | none => []
    profilePicture := uploadedPicture }

namespace userController

/-- `userController.createUser` success path: assembles `userData`,
calls the storage manager, answers 201 with the stored record. -/
def createUserHandler (doc : List User) (body : CreateBody)
    (parseSkills : String → List String)
    (parseProjects : String → List Project)
    (parseSocials : String → List Social)
    (uploadedPicture : Option String)
    (freshId now : String) : HttpResponse × List User :=
  let userData :=
    controllerCreateData body parseSkills parseProjects parseSocials
      uploadedPicture
  let res := createUser doc userData freshId now
  ({ status := 201, body := .user res.2 }, res.1)

/-- The multipart body of an update request (all fields optional). -/
structure UpdateBody where
  fullName : Option String := none
  profession : Option String := none
  skills : Option String := none
  projects : Option String := none
  socials : Option String := none
deriving Repr, DecidableEq

/-- The `updatedData` object `userController.updateUser` assembles: each
field coalesces a falsy request value (absent or empty string) with the
existing record via `||` or a ternary, so every key is present. -/
def controllerUpdateData (body : UpdateBody) (existingUser : User)
    (parseSkills : String → List String)
    (parseProjects : String → List Project)
    (parseSocials : String → List Social)
    (uploadedPicture : Option String) : PartialUser :=
  { fullName := some (jsOrString body.fullName existingUser.fullName)
    profession := some (jsOrOptString body.profession existingUser.profession)
    skills := some
      (match body.skills with
       | some s => if s = "" then existingUser.skills else parseSkills s
       | none => existingUser.skills)
    projects := some
      (match body.projects with
       | some s => if s = "" then existingUser.projects else parseProjects s
       | none => existingUser.projects)
    socials := some
      (match body.socials with
       | some s => if s = "" then existingUser.socials else parseSocials s
       | none => existingUser.socials)
    profilePicture := some
      (match uploadedPicture with
       | some f => some f
       | none => existingUser.profilePicture) }

/-- `userController.updateUser`: 404 when `getUserById` finds nothing,
otherwise merge via the storage manager and answer 200 with the
updated record; a storage throw becomes a 500 body. -/
def updateUserHandler (doc : List User) (id : String) (body : UpdateBody)
    (parseSkills : String → List String)
    (parseProjects : String → List Project)
    (parseSocials : String → List Social)
    (uploadedPicture : Option String)
    (now : String) : HttpResponse × List User :=
  match getUserById doc id with
  | none => ({ status := 404, body := .message "User not found" }, doc)
  | some existingUser =>
    let updatedData :=
      controllerUpdateData body existingUser parseSkills parseProjects
        parseSocials uploadedPicture
    match updateUser doc id updatedData now with
    | (doc1, .ok updatedUser) =>
      ({ status := 200, body := .user updatedUser }, doc1)
    | (doc1, .error e) =>
      ({ status := 500, body := .errorBody "Error updating user" e }, doc1)

/-- `userController.deleteUser`: calls the storage manager inside a
try/catch; ANY throw (including the not-found throw) is answered with
status 500 and the body `message: Error deleting user`. -/
def deleteUserHandler (doc : List User) (id : String)
    (unlink : String → UnlinkResult) : HttpResponse × List User :=
  match deleteUser doc id unlink with
  | (doc1, .ok _) =>
    ({ status := 200, body := .message "User deleted successfully" }, doc1)
  | (doc1, .error e) =>
    ({ status := 500, body := .errorBody "Error deleting user" e }, doc1)

end userController

/-! ### Error bodies (middleware and controller catch blocks) -/

/-- A JSON error body: `message` plus an optional `error` detail field;
`none` models the empty object sent in production. -/
structure ErrorBody where
  message : String
  error : Option String
deriving Repr, DecidableEq

/-- The app-level error middleware body: `message` is fixed and the
`error` detail is the empty object when NODE_ENV is production,
otherwise `err.message`. -/
def middlewareErrorBody (production : Bool) (errMsg : String) : ErrorBody :=
  { message := "Something went wrong!"
    error := if production then none else some errMsg }

/-- The catch block of `userController.createUser`: it sends
`error: error.message` unconditionally and never consults NODE_ENV,
so the body is the same function of the error in every deployment
mode (the `production` argument is unused, mirroring the source). -/
def createUserCatchBody (_production : Bool) (errMsg : String) : ErrorBody :=
  { message := "Error creating user", error := some errMsg }

/-! ### ORM variant (Sequelize model validation) -/

/-- A row of the `users` table. -/
structure OrmUser where
  id : Nat
  fullName : String
  profession : Option String
  skills : List String
  projects : List Project
  socials : List Social
  profilePicture : Option String
deriving Repr, DecidableEq

/-- The attributes handed to `User.create` / `user.update` in the ORM
variant; `fullName : none` models a missing (undefined/null) value. -/
structure OrmUserData where
  fullName : Option String
  profession : Option String
  skills : List String
  projects : List Project
  socials : List Social
  profilePicture : Option String
deriving Repr, DecidableEq

/-- Sequelize validation of the `User` model: `fullName` has
`allowNull: false` and `notEmpty: true`; `profilePicture` allows null
but validates `notEmpty` when a string is given. -/
def ormValidate (data : OrmUserData) : Except String Unit :=
  match data.fullName with
  | none => .error "notNull Violation: User.fullName cannot be null"
  | some fn =>
    if fn = "" then .error "Validation error: Validation notEmpty on fullName failed"
    else
      match data.profilePicture with
      | some "" => .error "Validation error: Validation notEmpty on profilePicture failed"
      | _ => .ok ()

/-- `User.create` in the ORM variant: runs model validation, then
inserts a row with a fresh primary key. -/
def ormCreate (table : List OrmUser) (data : OrmUserData) (freshId : Nat) :
    List OrmUser × Except String OrmUser :=
  match ormValidate data with
  | .error e => (table, .error e)
  | .ok _ =>
    match data.fullName with
    | none => (table, .error "notNull Violation: User.fullName cannot be null")
    | some fn =>
      let row : OrmUser :=
        { id := freshId
          fullName := fn
          profession := data.profession
          skills := data.skills
          projects := data.projects
          socials := data.socials
          profilePicture := data.profilePicture }
      (table ++ [row], .ok row)

/-- `user.update(updatedData)` in the ORM variant: validation runs on
the updated attributes, then the row is overwritten in place. -/
def ormUpdate (row : OrmUser) (data : OrmUserData) : Except String OrmUser :=
  match ormValidate data with
  | .error e => .error e
  | .ok _ =>
    match data.fullName with
    | none => .error "notNull Violation: User.fullName cannot be null"
    | some fn =>
      .ok { row with
              fullName := fn
              profession := data.profession
              skills := data.skills
              projects := data.projects
              socials := data.socials
              profilePicture := data.profilePicture }

/-! ### Helper lemmas about the JS array operations -/

theorem jsFind_of_all_false {p : α → Bool} :
    ∀ l : List α, (∀ x ∈ l, p x = false) → jsFind p l = none := by
  intro l
  induction l with
  | nil => intro _; rfl
  | cons x xs ih =>
    intro h
    simp only [jsFind]
    rw [h x (List.mem_cons_self x xs)]
    simpa using ih (fun y hy => h y (List.mem_cons_of_mem x hy))

theorem jsFind_pred {p : α → Bool} {u : α} {l : List α}
    (h : jsFind p l = some u) : p u = true := by
  induction l with
  | nil => exact absurd h (by simp [jsFind])
  | cons x xs ih =>
    simp only [jsFind] at h
    by_cases hx : p x = true
    · rw [if_pos hx] at h
      cases h
      exact hx
    · rw [if_neg hx] at h
      exact ih h

theorem jsFind_none_findIndex {p : α → Bool} :
    ∀ l : List α, jsFind p l = none → jsFindIndex p l = none := by
  intro l
  induction l with
  | nil => intro _; rfl
  | cons x xs ih =>
    intro h
    simp only [jsFind] at h
    simp only [jsFindIndex]
    by_cases hx : p x = true
    · rw [if_pos hx] at h; cases h
    · rw [if_neg hx] at h
      rw [if_neg hx, ih h]
      rfl

theorem jsFind_some_findIndex {p : α → Bool} {u : α} {l : List α}
    (h : jsFind p l = some u) :
    ∃ i, jsFindIndex p l = some i ∧ l[i]? = some u := by
  induction l with
  | nil => exact absurd h (by simp [jsFind])
  | cons x xs ih =>
    simp only [jsFind] at h
    by_cases hx : p x = true
    · rw [if_pos hx] at h
      cases h
      exact ⟨0, by simp [jsFindIndex, hx], by simp⟩
    · rw [if_neg hx] at h
      obtain ⟨i, hi, hg⟩ := ih h
      exact ⟨i + 1, by simp [jsFindIndex, hx, hi], by simpa using hg⟩

theorem jsFind_set {p : α → Bool} {x : α} (hx : p x = true) :
    ∀ (l : List α) (i : Nat), jsFindIndex p l = some i →
      jsFind p (l.set i x) = some x := by
  intro l
  induction l with
  | nil => intro i h; exact absurd h (by simp [jsFindIndex])
  | cons y ys ih =>
    intro i h
    simp only [jsFindIndex] at h
    by_cases hy : p y = true
    · rw [if_pos hy] at h
      cases h
      simp [jsFind, hx]
    · rw [if_neg hy] at h
      cases hidx : jsFindIndex p ys with
      | none => rw [hidx] at h; cases h
      | some j =>
        rw [hidx] at h
        simp at h
        subst h
        simp only [List.set]
        simp only [jsFind]
        rw [if_neg hy]
        exact ih j hidx

theorem jsFind_append_of_none {p : α → Bool} :
    ∀ l1 l2 : List α, jsFind p l1 = none →
      jsFind p (l1 ++ l2) = jsFind p l2 := by
  intro l1
  induction l1 with
  | nil => intro l2 _; rfl
  | cons x xs ih =>
    intro l2 h
    simp only [jsFind] at h
    by_cases hx : p x = true
    · rw [if_pos hx] at h; cases h
    · rw [if_neg hx] at h
      simp only [List.cons_append, jsFind]
      rw [if_neg hx]
      exact ih l2 h

theorem jsFind_filter_not (p : α → Bool) :
    ∀ l : List α, jsFind p (l.filter (fun y => !(p y))) = none := by
  intro l
  apply jsFind_of_all_false
  intro x hx
  have := List.of_mem_filter hx
  simpa using this

/-! ### Claim theorems -/

/-- C2: a partial update whose present keys do not include `profession`
merges field-by-field: a present key (for instance `skills`) fully
replaces the prior value, an absent key is untouched, and a subsequent
`getUserById` returns the merged record, whose `profession` equals its
pre-update value. -/
theorem updateUser_merge_preserves_absent_profession
    (doc : List User) (id : String) (p : PartialUser) (now : String)
    (u : User)
    (hprof : p.profession = none)
    (hfound : getUserById doc id = some u) :
    (updateUser doc id p now).2 = .ok (mergeUser u p now) ∧
    getUserById (updateUser doc id p now).1 id = some (mergeUser u p now) ∧
    (mergeUser u p now).profession = u.profession ∧
    (∀ s, p.skills = some s → (mergeUser u p now).skills = s) := by
  have hfind : jsFind (fun v : User => v.id == id) doc = some u := hfound
  have hpred := jsFind_pred hfind
  obtain ⟨i, hidx, hget⟩ := jsFind_some_findIndex hfind
  have hmid : (fun v : User => v.id == id) (mergeUser u p now) = true := by
    simpa [mergeUser] using hpred
  refine ⟨?_, ?_, ?_, ?_⟩
  · simp [updateUser, getAllUsers, hidx, hget]
  · have h1 : (updateUser doc id p now).1 = doc.set i (mergeUser u p now) := by
      simp [updateUser, getAllUsers, hidx, hget]
    rw [h1]
    exact @jsFind_set User (fun v : User => v.id == id) (mergeUser u p now)
      hmid doc i hidx
  · simp [mergeUser, hprof]
  · intro s hs
    simp [mergeUser, hs]

/-- C2 witness: one-element store, update supplying only skills. -/
theorem updateUser_merge_preserves_absent_profession_witness :
    (Portfolio.updateUser
      [{ id := "a", fullName := "Ann", profession := some "dev",
         skills := ["c"], projects := [], socials := [],
         profilePicture := none, createdAt := "t0", updatedAt := "t0" }]
      "a" { skills := some ["x"] } "t1").2 =
      .ok { id := "a", fullName := "Ann", profession := some "dev",
            skills := ["x"], projects := [], socials := [],
            profilePicture := none, createdAt := "t0", updatedAt := "t1" } :=
  (updateUser_merge_preserves_absent_profession
    [{ id := "a", fullName := "Ann", profession := some "dev",
       skills := ["c"], projects := [], socials := [],
       profilePicture := none, createdAt := "t0", updatedAt := "t0" }]
    "a" { skills := some ["x"] } "t1"
    { id := "a", fullName := "Ann", profession := some "dev",
      skills := ["c"], projects := [], socials := [],
      profilePicture := none, createdAt := "t0", updatedAt := "t0" }
    rfl (by decide)).1

/-- C3: `updateUser` on an id absent from the document fails with the
not-found error and returns the document unchanged (the throw happens
before any write). -/
theorem updateUser_not_found_leaves_doc
    (doc : List User) (id : String) (p : PartialUser) (now : String)
    (habsent : getUserById doc id = none) :
    updateUser doc id p now = (doc, .error "User not found") := by
  have hidx : jsFindIndex (fun v : User => v.id == id) doc = none :=
    jsFind_none_findIndex doc (by simpa [getUserById, getAllUsers] using habsent)
  simp [updateUser, getAllUsers, hidx]

/-- C3 witness: update of a missing id on a one-element store. -/
theorem updateUser_not_found_leaves_doc_witness :
    Portfolio.updateUser
      [{ id := "a", fullName := "Ann", profession := none,
         skills := [], projects := [], socials := [],
         profilePicture := none, createdAt := "t0", updatedAt := "t0" }]
      "missing" { skills := some ["x"] } "t1" =
      ([{ id := "a", fullName := "Ann", profession := none,
          skills := [], projects := [], socials := [],
          profilePicture := none, createdAt := "t0", updatedAt := "t0" }],
        .error "User not found") :=
  updateUser_not_found_leaves_doc
    [{ id := "a", fullName := "Ann", profession := none,
       skills := [], projects := [], socials := [],
       profilePicture := none, createdAt := "t0", updatedAt := "t0" }]
    "missing" { skills := some ["x"] } "t1" (by decide)

/-- C1 counterexample: with an empty store every id is absent, yet the
file-backed delete handler answers 500 (the controller catches the
not-found throw with the generic 500 handler), not 404. -/
theorem deleteUserHandler_absent_is_500_not_404 :
    getUserById [] "missing" = none ∧
    (userController.deleteUserHandler [] "missing"
        (fun _ => UnlinkResult.ok)).1.status = 500 ∧
    ¬ (userController.deleteUserHandler [] "missing"
        (fun _ => UnlinkResult.ok)).1.status = 404 := by
  refine ⟨rfl, rfl, by decide⟩

/-- C1 amended: on an absent id the file-backed delete handler answers
500 with the `Error deleting user` body (not 404) and the document is
unchanged; on a present id whose picture removal does not hit a
non-ENOENT I/O error it answers 200 with the confirmation message and
the record is removed. -/
theorem deleteUserHandler_behavior
    (doc : List User) (id : String) (unlink : String → UnlinkResult) :
    (getUserById doc id = none →
      userController.deleteUserHandler doc id unlink =
        ({ status := 500,
           body := .errorBody "Error deleting user" "User not found" }, doc)) ∧
    (∀ user, getUserById doc id = some user →
      (∀ pic msg, user.profilePicture = some pic →
        unlink pic ≠ UnlinkResult.ioError msg) →
      (userController.deleteUserHandler doc id unlink).1 =
        { status := 200, body := .message "User deleted successfully" } ∧
      getUserById (userController.deleteUserHandler doc id unlink).2 id
        = none) := by
  constructor
  · intro habsent
    have hidx : jsFindIndex (fun v : User => v.id == id) doc = none :=
      jsFind_none_findIndex doc habsent
    simp [userController.deleteUserHandler, deleteUser, getAllUsers, hidx]
  · intro user hfound hok
    have hfind : jsFind (fun v : User => v.id == id) doc = some user := hfound
    obtain ⟨i, hidx, hget⟩ := jsFind_some_findIndex hfind
    have hdel : deleteUser doc id unlink =
        (doc.filter (fun u => !(u.id == id)), .ok ()) := by
      cases hpic : user.profilePicture with
      | none => simp [deleteUser, getAllUsers, hidx, hget, hpic]
      | some pic =>
        cases hu : unlink pic with
        | ok => simp [deleteUser, getAllUsers, hidx, hget, hpic, hu]
        | enoent => simp [deleteUser, getAllUsers, hidx, hget, hpic, hu]
        | ioError msg => exact absurd hu (hok pic msg hpic)
    constructor
    · simp [userController.deleteUserHandler, hdel]
    · simp only [userController.deleteUserHandler, hdel]
      exact @jsFind_filter_not User (fun v : User => v.id == id) doc

/-- C1 witness: the absent branch on the empty store and the present
branch on a one-element store. -/
theorem deleteUserHandler_behavior_witness :
    (userController.deleteUserHandler [] "x" (fun _ => UnlinkResult.ok) =
      ({ status := 500,
         body := .errorBody "Error deleting user" "User not found" }, [])) ∧
    ((userController.deleteUserHandler
        [{ id := "a", fullName := "Ann", profession := none,
           skills := [], projects := [], socials := [],
           profilePicture := none, createdAt := "t0", updatedAt := "t0" }]
        "a" (fun _ => UnlinkResult.ok)).1 =
      { status := 200, body := .message "User deleted successfully" }) :=
  ⟨(deleteUserHandler_behavior [] "x" (fun _ => UnlinkResult.ok)).1 rfl,
    ((deleteUserHandler_behavior
        [{ id := "a", fullName := "Ann", profession := none,
           skills := [], projects := [], socials := [],
           profilePicture := none, createdAt := "t0", updatedAt := "t0" }]
        "a" (fun _ => UnlinkResult.ok)).2
      { id := "a", fullName := "Ann", profession := none,
        skills := [], projects := [], socials := [],
        profilePicture := none, createdAt := "t0", updatedAt := "t0" }
      (by decide)
      (fun pic msg hpic => Option.noConfusion hpic)).1⟩

/-- C10: when the record exists, has a profile picture, and unlinking
that picture fails with an I/O error other than ENOENT, `deleteUser`
propagates the error and returns the document unchanged, so the record
is still present. -/
theorem deleteUser_unlink_error_keeps_doc
    (doc : List User) (id : String) (unlink : String → UnlinkResult)
    (user : User) (pic msg : String)
    (hfound : getUserById doc id = some user)
    (hpic : user.profilePicture = some pic)
    (hunlink : unlink pic = UnlinkResult.ioError msg) :
    deleteUser doc id unlink = (doc, .error msg) ∧
    getUserById doc id = some user := by
  have hfind : jsFind (fun v : User => v.id == id) doc = some user := hfound
  obtain ⟨i, hidx, hget⟩ := jsFind_some_findIndex hfind
  exact ⟨by simp [deleteUser, getAllUsers, hidx, hget, hpic, hunlink], hfound⟩

/-- C10 witness: one-element store whose picture unlink fails with a
permission error. -/
theorem deleteUser_unlink_error_keeps_doc_witness :
    deleteUser
      [{ id := "a", fullName := "Ann", profession := none,
         skills := [], projects := [], socials := [],
         profilePicture := some "p.png", createdAt := "t0",
         updatedAt := "t0" }]
      "a" (fun _ => UnlinkResult.ioError "EACCES") =
      ([{ id := "a", fullName := "Ann", profession := none,
          skills := [], projects := [], socials := [],
          profilePicture := some "p.png", createdAt := "t0",
          updatedAt := "t0" }], .error "EACCES") :=
  (deleteUser_unlink_error_keeps_doc
    [{ id := "a", fullName := "Ann", profession := none,
       skills := [], projects := [], socials := [],
       profilePicture := some "p.png", createdAt := "t0",
       updatedAt := "t0" }]
    "a" (fun _ => UnlinkResult.ioError "EACCES")
    { id := "a", fullName := "Ann", profession := none,
      skills := [], projects := [], socials := [],
      profilePicture := some "p.png", createdAt := "t0",
      updatedAt := "t0" }
    "p.png" "EACCES" (by decide) rfl rfl).1

/-- C7: `createUser` followed by `getUserById` on the returned id
yields exactly the returned record (timestamps are the same strings on
both sides).  The generated id is assumed fresh, which is what the
per-call `uuidv4()` source provides. -/
theorem createUser_roundtrip
    (doc : List User) (data : UserData) (freshId now : String)
    (hfresh : ∀ u ∈ doc, u.id ≠ freshId) :
    getUserById (createUser doc data freshId now).1
        (createUser doc data freshId now).2.id =
      some (createUser doc data freshId now).2 := by
  have hnone : jsFind (fun v : User => v.id == freshId) doc = none := by
    apply jsFind_of_all_false
    intro x hx
    simpa using hfresh x hx
  simp only [createUser, getUserById, getAllUsers]
  rw [jsFind_append_of_none doc _ hnone]
  simp [jsFind]

/-- C7 witness: round-trip on a store that already has one record. -/
theorem createUser_roundtrip_witness :
    getUserById
      (createUser
        [{ id := "a", fullName := "Ann", profession := none,
           skills := [], projects := [], socials := [],
           profilePicture := none, createdAt := "t0", updatedAt := "t0" }]
        { fullName := "Bob", profession := some "dev", skills := ["go"],
          projects := [], socials := [], profilePicture := none }
        "b" "t1").1
      (createUser
        [{ id := "a", fullName := "Ann", profession := none,
           skills := [], projects := [], socials := [],
           profilePicture := none, createdAt := "t0", updatedAt := "t0" }]
        { fullName := "Bob", profession := some "dev", skills := ["go"],
          projects := [], socials := [], profilePicture := none }
        "b" "t1").2.id =
      some (createUser
        [{ id := "a", fullName := "Ann", profession := none,
           skills := [], projects := [], socials := [],
           profilePicture := none, createdAt := "t0", updatedAt := "t0" }]
        { fullName := "Bob", profession := some "dev", skills := ["go"],
          projects := [], socials := [], profilePicture := none }
        "b" "t1").2 :=
  createUser_roundtrip
    [{ id := "a", fullName := "Ann", profession := none,
       skills := [], projects := [], socials := [],
       profilePicture := none, createdAt := "t0", updatedAt := "t0" }]
    { fullName := "Bob", profession := some "dev", skills := ["go"],
      projects := [], socials := [], profilePicture := none }
    "b" "t1" (by decide)

/-- C8: a create request supplying only `fullName` (no skills,
projects, socials, profession or picture) stores a record with empty
sequences for skills, projects and socials, and, the generated uuid
being fresh, an id distinct from every id already in the store; the new
document is the old one with that single record appended. -/
theorem createUserHandler_only_fullName
    (doc : List User) (body : CreateBody)
    (parseSkills : String → List String)
    (parseProjects : String → List Project)
    (parseSocials : String → List Social)
    (freshId now : String)
    (hprofession : body.profession = none)
    (hskills : body.skills = none)
    (hprojects : body.projects = none)
    (hsocials : body.socials = none)
    (hfresh : ∀ u ∈ doc, u.id ≠ freshId) :
    (userController.createUserHandler doc body parseSkills parseProjects
        parseSocials none freshId now).1.status = 201 ∧
    (userController.createUserHandler doc body parseSkills parseProjects
        parseSocials none freshId now).1.body =
      .user { id := freshId, fullName := body.fullName, profession := none,
              skills := [], projects := [], socials := [],
              profilePicture := none, createdAt := now, updatedAt := now } ∧
    (userController.createUserHandler doc body parseSkills parseProjects
        parseSocials none freshId now).2 =
      doc ++ [{ id := freshId, fullName := body.fullName,
                profession := none, skills := [], projects := [],
                socials := [], profilePicture := none, createdAt := now,
                updatedAt := now }] ∧
    (∀ u ∈ doc, u.id ≠ freshId) := by
  refine ⟨rfl, ?_, ?_, hfresh⟩
  · simp [userController.createUserHandler, controllerCreateData,
      createUser, jsOrOptString, hprofession, hskills, hprojects, hsocials]
  · simp [userController.createUserHandler, controllerCreateData,
      createUser, getAllUsers, jsOrOptString, hprofession, hskills,
      hprojects, hsocials]

/-- C8 witness: creating `Cal` with only a full name on a one-record
store. -/
theorem createUserHandler_only_fullName_witness :
    (userController.createUserHandler
      [{ id := "a", fullName := "Ann", profession := none,
         skills := [], projects := [], socials := [],
         profilePicture := none, createdAt := "t0", updatedAt := "t0" }]
      { fullName := "Cal" } (fun _ => []) (fun _ => []) (fun _ => [])
      none "c" "t2").1.body =
      .user { id := "c", fullName := "Cal", profession := none,
              skills := [], projects := [], socials := [],
              profilePicture := none, createdAt := "t2",
              updatedAt := "t2" } :=
  (createUserHandler_only_fullName
    [{ id := "a", fullName := "Ann", profession := none,
       skills := [], projects := [], socials := [],
       profilePicture := none, createdAt := "t0", updatedAt := "t0" }]
    { fullName := "Cal" } (fun _ => []) (fun _ => []) (fun _ => [])
    "c" "t2" rfl rfl rfl rfl (by decide)).2.1

/-- C9: a PUT request carrying an empty string for `fullName` or for
`profession` leaves that stored field at its prior value: the handler
coalesces each falsy input with the existing record independently, so
neither field can be cleared to empty through the update endpoint.
Each preservation follows from its own empty-string hypothesis alone,
whatever the other field of the request carries. -/
theorem updateUserHandler_empty_string_keeps_prior
    (doc : List User) (id : String) (body : userController.UpdateBody)
    (parseSkills : String → List String)
    (parseProjects : String → List Project)
    (parseSocials : String → List Social)
    (uploadedPicture : Option String) (now : String)
    (existingUser : User)
    (hfound : getUserById doc id = some existingUser) :
    ∃ u, (userController.updateUserHandler doc id body parseSkills
            parseProjects parseSocials uploadedPicture now).1 =
          { status := 200, body := .user u } ∧
      getUserById (userController.updateUserHandler doc id body parseSkills
          parseProjects parseSocials uploadedPicture now).2 id = some u ∧
      (body.fullName = some "" → u.fullName = existingUser.fullName) ∧
      (body.profession = some "" →
        u.profession = existingUser.profession) := by
  have hfind : jsFind (fun v : User => v.id == id) doc = some existingUser :=
    hfound
  have hpred := jsFind_pred hfind
  obtain ⟨i, hidx, hget⟩ := jsFind_some_findIndex hfind
  have hmid : (fun v : User => v.id == id)
      (mergeUser existingUser
        (userController.controllerUpdateData body existingUser parseSkills
          parseProjects parseSocials uploadedPicture) now) = true := by
    simpa [mergeUser] using hpred
  refine ⟨mergeUser existingUser
      (userController.controllerUpdateData body existingUser parseSkills
        parseProjects parseSocials uploadedPicture) now, ?_, ?_, ?_, ?_⟩
  · simp [userController.updateUserHandler, hfound, updateUser,
      getAllUsers, hidx, hget]
  · have h2 : (userController.updateUserHandler doc id body parseSkills
        parseProjects parseSocials uploadedPicture now).2 =
        doc.set i (mergeUser existingUser
          (userController.controllerUpdateData body existingUser parseSkills
            parseProjects parseSocials uploadedPicture) now) := by
      simp [userController.updateUserHandler, hfound, updateUser,
        getAllUsers, hidx, hget]
    rw [h2]
    exact @jsFind_set User (fun v : User => v.id == id)
      (mergeUser existingUser
        (userController.controllerUpdateData body existingUser parseSkills
          parseProjects parseSocials uploadedPicture) now)
      hmid doc i hidx
  · intro hfn
    simp [mergeUser, userController.controllerUpdateData, jsOrString, hfn]
  · intro hpr
    simp [mergeUser, userController.controllerUpdateData, jsOrOptString, hpr]

/-- C9 witness: a PUT carrying an empty fullName next to a non-empty
profession against a one-record store; the conditional conclusions are
instantiated at that concrete request. -/
theorem updateUserHandler_empty_string_keeps_prior_witness :
    ∃ u, (userController.updateUserHandler
            [{ id := "a", fullName := "Ann", profession := some "dev",
               skills := [], projects := [], socials := [],
               profilePicture := none, createdAt := "t0",
               updatedAt := "t0" }]
            "a" { fullName := some "", profession := some "writer" }
            (fun _ => []) (fun _ => []) (fun _ => []) none "t1").1 =
          { status := 200, body := .user u } ∧
      getUserById (userController.updateUserHandler
          [{ id := "a", fullName := "Ann", profession := some "dev",
             skills := [], projects := [], socials := [],
             profilePicture := none, createdAt := "t0",
             updatedAt := "t0" }]
          "a" { fullName := some "", profession := some "writer" }
          (fun _ => []) (fun _ => []) (fun _ => []) none "t1").2 "a"
        = some u ∧
      (({ fullName := some "", profession := some "writer" }
          : userController.UpdateBody).fullName = some "" →
        u.fullName = "Ann") ∧
      (({ fullName := some "", profession := some "writer" }
          : userController.UpdateBody).profession = some "" →
        u.profession = some "dev") :=
  updateUserHandler_empty_string_keeps_prior
    [{ id := "a", fullName := "Ann", profession := some "dev",
       skills := [], projects := [], socials := [],
       profilePicture := none, createdAt := "t0", updatedAt := "t0" }]
    "a" { fullName := some "", profession := some "writer" }
    (fun _ => []) (fun _ => []) (fun _ => []) none "t1"
    { id := "a", fullName := "Ann", profession := some "dev",
      skills := [], projects := [], socials := [],
      profilePicture := none, createdAt := "t0", updatedAt := "t0" }
    (by decide)

/-- C5: a non-image mime type or a size over 10 MiB makes the picture
store put fail before any write (the directory is unchanged); a valid
upload writes the bytes under the freshly generated unique filename
and returns it. -/
theorem uploadProfilePicture_validation
    (store : PicStore) (file : UploadedFile) (freshUuid : String) :
    ((strStartsWith file.mimetype "image/" = false ∨
        file.size > 10 * 1024 * 1024) →
      (uploadProfilePicture store file freshUuid).1 = store ∧
      ∃ e, (uploadProfilePicture store file freshUuid).2 = .error e) ∧
    (strStartsWith file.mimetype "image/" = true →
      file.size ≤ 10 * 1024 * 1024 →
      (freshUuid ++ extname file.originalname) ∉ store.map Prod.fst →
      (uploadProfilePicture store file freshUuid).1 =
        store ++ [(freshUuid ++ extname file.originalname, file.buffer)] ∧
      (uploadProfilePicture store file freshUuid).2 =
        .ok (freshUuid ++ extname file.originalname) ∧
      (freshUuid ++ extname file.originalname) ∉ store.map Prod.fst) := by
  constructor
  · intro h
    cases h with
    | inl hmime =>
      refine ⟨?_, "Not an image! Please upload an image.", ?_⟩ <;>
        simp [uploadProfilePicture, hmime]
    | inr hsize =>
      by_cases hmime : strStartsWith file.mimetype "image/" = true
      · refine ⟨?_, "File too large. Maximum size is 10MB.", ?_⟩ <;>
          simp [uploadProfilePicture, hmime, hsize]
      · refine ⟨?_, "Not an image! Please upload an image.", ?_⟩ <;>
          simp [uploadProfilePicture, Bool.eq_false_iff.mpr hmime]
  · intro hmime hsize hfresh
    have hnot : ¬ file.size > 10 * 1024 * 1024 := by omega
    exact ⟨by simp [uploadProfilePicture, hmime, hnot],
      by simp [uploadProfilePicture, hmime, hnot], hfresh⟩

/-- C5 witness: an oversized text file is rejected on the empty
directory; a small png is stored under the generated name. -/
theorem uploadProfilePicture_validation_witness :
    ((uploadProfilePicture []
        { mimetype := "text/plain", size := 11000000,
          originalname := "a.txt", buffer := [1] } "u1").1 = [] ∧
      ∃ e, (uploadProfilePicture []
        { mimetype := "text/plain", size := 11000000,
          originalname := "a.txt", buffer := [1] } "u1").2 = .error e) ∧
    ((uploadProfilePicture []
        { mimetype := "image/png", size := 4, originalname := "a.png",
          buffer := [1, 2, 3, 4] } "u2").1 =
      [("u2" ++ extname "a.png", [1, 2, 3, 4])] ∧
      (uploadProfilePicture []
        { mimetype := "image/png", size := 4, originalname := "a.png",
          buffer := [1, 2, 3, 4] } "u2").2 =
        .ok ("u2" ++ extname "a.png")) :=
  ⟨(uploadProfilePicture_validation []
      { mimetype := "text/plain", size := 11000000,
        originalname := "a.txt", buffer := [1] } "u1").1
    (Or.inl (by decide)),
    (fun h => ⟨h.1, h.2.1⟩)
      ((uploadProfilePicture_validation []
          { mimetype := "image/png", size := 4, originalname := "a.png",
            buffer := [1, 2, 3, 4] } "u2").2
        (by decide) (by decide) (by decide))⟩

theorem ormValidate_ok_fullName {data : OrmUserData}
    (h : ormValidate data = .ok ()) :
    ∃ fn, data.fullName = some fn ∧ fn ≠ "" := by
  cases hfn : data.fullName with
  | none => simp [ormValidate, hfn] at h
  | some fn =>
    refine ⟨fn, rfl, ?_⟩
    intro he
    subst he
    simp [ormValidate, hfn] at h

/-- C4 counterexample: the file-backed variant performs no fullName
validation, so creating with an empty fullName stores a record whose
fullName is empty — the store then holds a record violating the
claimed invariant. -/
theorem createUser_accepts_empty_fullName :
    ∃ u ∈ (createUser []
      { fullName := "", profession := none, skills := [], projects := [],
        socials := [], profilePicture := none } "id-1" "t0").1,
      u.fullName = "" := by
  refine ⟨(createUser []
    { fullName := "", profession := none, skills := [], projects := [],
      socials := [], profilePicture := none } "id-1" "t0").2, ?_, rfl⟩
  simp [createUser, getAllUsers]

/-- C4 amended: the ORM variant enforces the non-empty fullName
invariant (model validation rejects null and empty on both create and
update, so every stored row keeps a non-empty fullName); the
file-backed variant performs no such validation. -/
theorem orm_fullName_never_empty
    (table : List OrmUser) (data : OrmUserData) (freshId : Nat)
    (hinv : ∀ u ∈ table, u.fullName ≠ "") :
    (∀ u ∈ (ormCreate table data freshId).1, u.fullName ≠ "") ∧
    (∀ row row2, ormUpdate row data = .ok row2 → row2.fullName ≠ "") := by
  constructor
  · intro u hu
    cases hval : ormValidate data with
    | error e =>
      rw [ormCreate.eq_def, hval] at hu
      exact hinv u hu
    | ok v =>
      obtain ⟨fn, hfn, hne⟩ := ormValidate_ok_fullName (by rw [hval])
      rw [ormCreate.eq_def, hval, hfn] at hu
      simp only [List.mem_append] at hu
      cases hu with
      | inl h => exact hinv u h
      | inr h =>
        simp only [List.mem_singleton] at h
        subst h
        exact hne
  · intro row row2 hupd
    cases hval : ormValidate data with
    | error e => rw [ormUpdate.eq_def, hval] at hupd; cases hupd
    | ok v =>
      obtain ⟨fn, hfn, hne⟩ := ormValidate_ok_fullName (by rw [hval])
      rw [ormUpdate.eq_def, hval, hfn] at hupd
      cases hupd
      exact hne

/-- C4 witness: creating and updating a valid row on a table already
holding one valid row. -/
theorem orm_fullName_never_empty_witness :
    (∀ u ∈ (ormCreate
        [{ id := 1, fullName := "Ann", profession := none, skills := [],
           projects := [], socials := [], profilePicture := none }]
        { fullName := some "Bob", profession := none, skills := [],
          projects := [], socials := [], profilePicture := none }
        2).1, u.fullName ≠ "") ∧
    (∀ row row2, ormUpdate row
        { fullName := some "Bob", profession := none, skills := [],
          projects := [], socials := [], profilePicture := none } =
          .ok row2 → row2.fullName ≠ "") :=
  orm_fullName_never_empty
    [{ id := 1, fullName := "Ann", profession := none, skills := [],
       projects := [], socials := [], profilePicture := none }]
    { fullName := some "Bob", profession := none, skills := [],
      projects := [], socials := [], profilePicture := none }
    2 (by decide)

/-- C6 counterexample: the catch block of the create handler includes
the underlying error detail even in production mode (it never consults
NODE_ENV), contradicting the claim that the detail appears only
outside production. -/
theorem createUserCatchBody_detail_in_production :
    (createUserCatchBody true "disk failure").error = some "disk failure" ∧
    ¬ (createUserCatchBody true "disk failure").error = none := by
  refine ⟨rfl, by simp [createUserCatchBody]⟩

/-- C6 amended: every error body carries a human-readable message; the
app-level middleware omits the detail exactly in production mode, but
the controller catch blocks (modelled by the create handler catch)
include the detail in every mode, production included. -/
theorem errorBody_message_and_detail (errMsg : String) :
    (middlewareErrorBody true errMsg).message = "Something went wrong!" ∧
    (middlewareErrorBody false errMsg).message = "Something went wrong!" ∧
    (middlewareErrorBody true errMsg).error = none ∧
    (middlewareErrorBody false errMsg).error = some errMsg ∧
    (createUserCatchBody true errMsg).message = "Error creating user" ∧
    (createUserCatchBody true errMsg).error = some errMsg ∧
    (createUserCatchBody false errMsg).error = some errMsg := by
  exact ⟨rfl, rfl, rfl, rfl, rfl, rfl, rfl⟩

end Portfolio
